import Mathlib

/-!
server-watchdog-go: client construction and request building

A shallow embedding of `server-watcher-go.go` (package `server_watchdog_go`).

Modelling conventions:

* Go strings are Lean `String`s; the builtin `len` is the byte length.
* Go `error` values are `Option String` (the message), `nil` is `none`.
* `uint16` and `uint32` are the bounded naturals `Fin 65536` and `Fin 4294967296`;
  `int` values (process ids, status codes) never take part in arithmetic and are `Int`.
* Functions of the repository that return `(value, error)` return a Lean pair.
* The standard library is outside the repository.  Its calls are gathered in a `World`
  record (`os.Getpid`, `os.Executable`, the success or failure of `http.NewRequest`, and
  `client.Do` together with the later `ioutil.ReadAll` of the response body); their results
  are `Except String _`.
* `json.Marshal` cannot fail on the three payload records (string and integer fields only),
  so the record itself stands for its serialised bytes and the error branch after
  `json.Marshal` is never taken.
* `http.NewRequest` can fail: it parses the URL, and `Create` puts any non-empty host into
  the URL unchecked.  Its error, when there is one, is returned by `sendRequest` before
  `client.Do` is reached.
* Every operation returns the list of library calls it made that matter to the wire
  contract (`Call.Marshal`, `Call.Do`) next to its Go result.
-/

namespace ServerWatchdog

/-! ## Basic Go types -/

/-- Go `uint16`. -/
abbrev uint16 := Fin 65536

/-- Go `uint32`. -/
abbrev uint32 := Fin 4294967296

/-- Go conversion `uint16(n)` of a non-negative integer: reduction modulo `2^16`. -/
def uint16.ofNat (n : Nat) : uint16 := ⟨n % 65536, Nat.mod_lt n (by decide)⟩

/-- Go `error`: `none` is `nil`, `some msg` an error whose `Error()` text is `msg`. -/
abbrev error := Option String

/-- Go `nil` error. -/
abbrev nil : error := none

/-- Go `errors.New`. -/
def errors.New (text : String) : error := some text

/-- Go builtin `len` on a string: its length in bytes. -/
def len (s : String) : Nat := s.utf8ByteSize

/-- Go `strconv.Itoa`, which is also how `%v` prints an `int`: the decimal rendering. -/
def strconv.Itoa (i : Int) : String :=
  if i < 0 then "-" ++ Nat.repr i.natAbs else Nat.repr i.natAbs

/-! ## Data model (lines 28-60) -/

/-- Go `ClientOptions`; the field defaults are the Go zero values. -/
structure ClientOptions where
  Host : String := ""
  Port : uint16 := 0
  UseSsl : Bool := false
  ApiKey : String := ""
  DefaultChannel : String := ""
  TimeoutMs : uint32 := 0
  deriving DecidableEq, Repr

/-- Go `ServerWatcherClient`. -/
structure ServerWatcherClient where
  url : String := ""
  apiKey : String := ""
  defaultChannel : String := ""
  timeoutMs : uint32 := 0
  deriving DecidableEq, Repr

/-- Go `processWatchJSON`. -/
structure processWatchJSON where
  Pid : Int := 0
  Name : String := ""
  Channel : String := ""
  Severity : String := ""
  deriving DecidableEq, Repr

/-- Go `processUnwatchJSON`. -/
structure processUnwatchJSON where
  Pid : Int := 0
  Channel : String := ""
  deriving DecidableEq, Repr

/-- Go `notifyJSON`. -/
structure notifyJSON where
  Message : String := ""
  Channel : String := ""
  Severity : String := ""
  deriving DecidableEq, Repr

/-- A value handed to `json.Marshal`; it stands for the bytes `json.Marshal` returns. -/
inductive Payload where
  | notify (v : notifyJSON)
  | processWatch (v : processWatchJSON)
  | processUnwatch (v : processUnwatchJSON)
  deriving DecidableEq, Repr

/-- The `channel` field of a payload. -/
def Payload.Channel : Payload → String
  | .notify v => v.Channel
  | .processWatch v => v.Channel
  | .processUnwatch v => v.Channel

/-! ## The library side -/

/-- Go `http.Header` with `Set`: one value per key, latest wins. -/
abbrev Header := List (String × String)

/-- Go `Header.Set`. -/
def Header.Set (h : Header) (key value : String) : Header :=
  h.filter (fun kv => kv.1 != key) ++ [(key, value)]

/-- The part of a Go `*http.Request` the client fills in.  `Timeout` is the duration given
to `context.WithTimeout`, in nanoseconds. -/
structure Request where
  Method : String
  URL : String
  Body : Payload
  Header : Header := []
  Timeout : Option Nat := none
  deriving DecidableEq, Repr

/-- The part of a Go `*http.Response` the client reads: the status code and what
`ioutil.ReadAll(resp.Body)` returns when it is called. -/
structure Response where
  StatusCode : Int
  Body : Except String String

/-- The standard-library calls made by the client. -/
structure World where
  /-- The value of `os.Getpid()`. -/
  Getpid : Int
  /-- The value of `os.Executable()`. -/
  Executable : Except String String
  /-- The error of `http.NewRequest(method, url, body)`, `nil` when the request is built. -/
  NewRequest : String → String → error
  /-- The value of `client.Do(req)`. -/
  Do : Request → Except String Response

/-- A library call recorded by the operations. -/
inductive Call where
  | Marshal (v : Payload)
  | Do (req : Request)
  deriving DecidableEq, Repr

/-- The requests among the recorded calls that were handed to `client.Do`. -/
def dispatched : List Call → List Request
  | [] => []
  | Call.Do req :: cs => req :: dispatched cs
  | Call.Marshal _ :: cs => dispatched cs

/-- The payloads among the recorded calls that were built and handed to `json.Marshal`. -/
def built : List Call → List Payload
  | [] => []
  | Call.Marshal v :: cs => v :: built cs
  | Call.Do _ :: cs => built cs

/-! ## `Create` and `GetDefaultChannel` (lines 64-109) -/

/-- Go `Create`. -/
def Create (options : ClientOptions) : Option ServerWatcherClient × error := Id.run do
  let mut c : ServerWatcherClient := {}
  if len options.Host = 0 then
    return (none, errors.New "invalid host")
  if options.Port.val < 0 ∨ options.Port.val > 65535 then
    return (none, errors.New "invalid port")
  c := { c with url := "http" }
  if options.UseSsl then
    c := { c with url := c.url ++ "s" }
  c := { c with
    url := c.url ++ ("://" ++ options.Host ++ ":" ++ strconv.Itoa (options.Port.val : Int)) }
  if len options.ApiKey = 0 then
    return (none, errors.New "invalid API key")
  c := { c with apiKey := options.ApiKey }
  if len options.DefaultChannel = 0 then
    return (none, errors.New "invalid default channel")
  c := { c with defaultChannel := options.DefaultChannel }
  if options.TimeoutMs = 0 then
    c := { c with timeoutMs := 30000 }
  else
    c := { c with timeoutMs := options.TimeoutMs }
  return (some c, nil)

/-- Go `(*ServerWatcherClient).GetDefaultChannel`. -/
def ServerWatcherClient.GetDefaultChannel (s : ServerWatcherClient) : String :=
  s.defaultChannel

/-! ## Helpers of the operations (lines 264-279) -/

/-- Go `(*ServerWatcherClient).validateChannel`. -/
def ServerWatcherClient.validateChannel (s : ServerWatcherClient) (channel : String) :
    String := Id.run do
  if len channel = 0 then
    return s.defaultChannel
  return channel

/-- Go `(*ServerWatcherClient).validateSeverity`. -/
def ServerWatcherClient.validateSeverity (_s : ServerWatcherClient) (severity : String) :
    String × error := Id.run do
  if len severity = 0 then
    return ("error", nil)
  if severity ≠ "error" ∧ severity ≠ "warn" ∧ severity ≠ "info" then
    return ("", errors.New "invalid severity")
  return (severity, nil)

/-! ## Request dispatch (lines 211-262) -/

/-- The request `sendRequest` assembles once `http.NewRequest` has succeeded
(lines 219-230): method, URL, body, the three headers and the timeout context. -/
def ServerWatcherClient.newRequest (s : ServerWatcherClient) (api : String)
    (payloadBytes : Payload) : Request := Id.run do
  let mut req : Request := { Method := "POST", URL := s.url ++ "/" ++ api, Body := payloadBytes }
  req := { req with Header := Header.Set req.Header "Accept" "application/json" }
  req := { req with Header := Header.Set req.Header "Content-Type" "application/json" }
  req := { req with Header := Header.Set req.Header "X-Api-Key" s.apiKey }
  req := { req with Timeout := some (s.timeoutMs.val * 1000000) }
  return req

/-- Go `(*ServerWatcherClient).sendRequest`: the calls made, the bytes returned and the
error returned. -/
def ServerWatcherClient.sendRequest (w : World) (s : ServerWatcherClient) (api : String)
    (payloadBytes : Payload) (hasResponse : Bool) : List Call × String × error := Id.run do
  let err := w.NewRequest "POST" (s.url ++ "/" ++ api)
  if err ≠ nil then
    return ([], "", err)
  let req := s.newRequest api payloadBytes
  let resp ← match w.Do req with
    | .error err => return ([Call.Do req], "", some err)
    | .ok resp => pure resp
  if resp.StatusCode ≠ 200 then
    let bodyBytes ← match resp.Body with
      | .error err => return ([Call.Do req], "", some err)
      | .ok bodyBytes => pure bodyBytes
    let mut msg := bodyBytes
    if len msg = 0 then
      msg := "Unsuccessful response from node."
    return ([Call.Do req], "",
      some (msg ++ " [Status: " ++ strconv.Itoa resp.StatusCode ++ "]"))
  if !hasResponse then
    return ([Call.Do req], "", nil)
  let bodyBytes ← match resp.Body with
    | .error err => return ([Call.Do req], "", some err)
    | .ok bodyBytes => pure bodyBytes
  return ([Call.Do req], bodyBytes, nil)

/-! ## Operations (lines 111-209) -/

/-- Go `(*ServerWatcherClient).notify`. -/
def ServerWatcherClient.notify (w : World) (s : ServerWatcherClient)
    (message channel severity : String) : List Call × error := Id.run do
  let mut payload : notifyJSON := {}
  if len message = 0 then
    return ([], nil)
  payload := { payload with Message := message }
  payload := { payload with Channel := s.validateChannel channel }
  payload := { payload with Severity := severity }
  let payloadBytes := Payload.notify payload
  let r := s.sendRequest w "notify" payloadBytes false
  return (Call.Marshal payloadBytes :: r.1, r.2.2)

/-- Go `(*ServerWatcherClient).Error`. -/
def ServerWatcherClient.Error (w : World) (s : ServerWatcherClient)
    (message channel : String) : List Call × error :=
  s.notify w message channel "error"

/-- Go `(*ServerWatcherClient).Warn`. -/
def ServerWatcherClient.Warn (w : World) (s : ServerWatcherClient)
    (message channel : String) : List Call × error :=
  s.notify w message channel "warn"

/-- Go `(*ServerWatcherClient).Info`. -/
def ServerWatcherClient.Info (w : World) (s : ServerWatcherClient)
    (message channel : String) : List Call × error :=
  s.notify w message channel "info"

/-- Go `(*ServerWatcherClient).ProcessWatch`. -/
def ServerWatcherClient.ProcessWatch (w : World) (s : ServerWatcherClient) (pid : Int)
    (name severity channel : String) : List Call × error := Id.run do
  let mut payload : processWatchJSON := {}
  payload := { payload with Pid := pid }
  if pid = 0 then
    payload := { payload with Pid := w.Getpid }
  else if pid < 1 then
    return ([], errors.New "invalid process id")
  if len name = 0 then
    match w.Executable with
    | .error err => return ([], some err)
    | .ok exe => payload := { payload with Name := exe }
  else
    payload := { payload with Name := name }
  let r := s.validateSeverity severity
  payload := { payload with Severity := r.1 }
  if r.2 ≠ nil then
    return ([], r.2)
  payload := { payload with Channel := s.validateChannel channel }
  let payloadBytes := Payload.processWatch payload
  let r := s.sendRequest w "process/watch" payloadBytes false
  return (Call.Marshal payloadBytes :: r.1, r.2.2)

/-- Go `(*ServerWatcherClient).ProcessUnwatch`. -/
def ServerWatcherClient.ProcessUnwatch (w : World) (s : ServerWatcherClient) (pid : Int)
    (channel : String) : List Call × error := Id.run do
  let mut payload : processUnwatchJSON := {}
  payload := { payload with Pid := pid }
  if pid = 0 then
    payload := { payload with Pid := w.Getpid }
  else if pid < 1 then
    return ([], errors.New "invalid process id")
  payload := { payload with Channel := s.validateChannel channel }
  let payloadBytes := Payload.processUnwatch payload
  let r := s.sendRequest w "process/unwatch" payloadBytes false
  return (Call.Marshal payloadBytes :: r.1, r.2.2)

/-! ## Specification-side definitions -/

/-- The construction check as the specification words it: the reason of the first violated
condition in the order host non-empty, port in [0,65535], API key non-empty, default channel
non-empty; `none` when no condition is violated. -/
def firstViolation (o : ClientOptions) : Option String :=
  if o.Host = "" then some "invalid host"
  else if ¬ (0 ≤ o.Port.val ∧ o.Port.val ≤ 65535) then some "invalid port"
  else if o.ApiKey = "" then some "invalid API key"
  else if o.DefaultChannel = "" then some "invalid default channel"
  else none

/-- The string `s` starts with the string `p`. -/
def startsWith (s p : String) : Bool := p.data.isPrefixOf s.data

/-- The default-channel rule as the specification words it: the caller-supplied channel
when it is non-empty, the client's default channel otherwise. -/
def defaultChannelRule (s : ServerWatcherClient) (channel : String) : String :=
  if channel ≠ "" then channel else s.GetDefaultChannel

/-- The process id the specification puts in a payload: the caller's own for `0`, the
given one otherwise. -/
def resolvedPid (w : World) (pid : Int) : Int :=
  if pid = 0 then w.Getpid else pid

/-- The name the specification puts in the watch payload: the caller's executable path for
the empty name (which may fail to resolve), the given name otherwise. -/
def resolvedName (w : World) (name : String) : Except String String :=
  if name = "" then w.Executable else .ok name

/-! ## Auxiliary definitions -/

/-- The client `Create` assembles when every check passes (lines 78-101), in closed form. -/
def createdClient (o : ClientOptions) : ServerWatcherClient :=
  { url := "http" ++ (if o.UseSsl then "s" else "") ++
      ("://" ++ o.Host ++ ":" ++ strconv.Itoa (o.Port.val : Int))
    apiKey := o.ApiKey
    defaultChannel := o.DefaultChannel
    timeoutMs := if o.TimeoutMs = 0 then 30000 else o.TimeoutMs }

/-! ## Concrete inputs -/

/-- The options of `_examples/demo.go`. -/
def demoOptions : ClientOptions :=
  { Host := "127.0.0.1", Port := 3004, ApiKey := "set-some-key", DefaultChannel := "default" }

/-- The client `Create` returns for `demoOptions`. -/
def demoClient : ServerWatcherClient :=
  { url := "http://127.0.0.1:3004", apiKey := "set-some-key", defaultChannel := "default",
    timeoutMs := 30000 }

/-- Options with TLS and an explicit timeout. -/
def tlsOptions : ClientOptions :=
  { Host := "watchdog.example.org", Port := 65535, UseSsl := true, ApiKey := "k",
    DefaultChannel := "ops", TimeoutMs := 1500 }

/-- The client `Create` returns for `tlsOptions`. -/
def tlsClient : ServerWatcherClient :=
  { url := "https://watchdog.example.org:65535", apiKey := "k", defaultChannel := "ops",
    timeoutMs := 1500 }

/-- Options whose host holds a space: every check of `Create` passes, yet no URL built
from it parses. -/
def spacedHostOptions : ClientOptions :=
  { Host := "a b", Port := 80, ApiKey := "k", DefaultChannel := "default" }

/-- The client `Create` returns for `spacedHostOptions`. -/
def spacedHostClient : ServerWatcherClient :=
  { url := "http://a b:80", apiKey := "k", defaultChannel := "default", timeoutMs := 30000 }

/-- A world whose server answers every request with status 200 and an empty body. -/
def okWorld : World :=
  { Getpid := 4242
    Executable := .ok "/usr/local/bin/demo"
    NewRequest := fun _ _ => none
    Do := fun _ => .ok { StatusCode := 200, Body := .ok "" } }

/-- A world in which `http.NewRequest` refuses a URL that holds a space, as Go's
`url.Parse` does for a space in the host name. -/
def strictWorld : World :=
  { Getpid := 4242
    Executable := .ok "/usr/local/bin/demo"
    NewRequest := fun _ url =>
      if ' ' ∈ url.data then some "net/url: invalid character in host name" else none
    Do := fun _ => .ok { StatusCode := 200, Body := .ok "" } }

/-- A world in which `os.Executable` fails. -/
def noExecutableWorld : World :=
  { Getpid := 4242
    Executable := .error "readlink /proc/self/exe: no such file or directory"
    NewRequest := fun _ _ => none
    Do := fun _ => .ok { StatusCode := 200, Body := .ok "" } }

/-- A world whose server answers every request with status 500 and body `server down`. -/
def serverDownWorld : World :=
  { Getpid := 4242
    Executable := .ok "/usr/local/bin/demo"
    NewRequest := fun _ _ => none
    Do := fun _ => .ok { StatusCode := 500, Body := .ok "server down" } }

/-- A world whose server answers every request with status 503 and an empty body. -/
def emptyBodyWorld : World :=
  { Getpid := 4242
    Executable := .ok "/usr/local/bin/demo"
    NewRequest := fun _ _ => none
    Do := fun _ => .ok { StatusCode := 503, Body := .ok "" } }

/-! ## Auxiliary lemmas -/

theorem len_eq_zero_iff (s : String) : len s = 0 ↔ s = "" := by
  rcases s with ⟨cs⟩
  cases cs with
  | nil => simp [len, String.utf8ByteSize, String.utf8ByteSize.go]
  | cons c cs =>
    have := Char.utf8Size_pos c
    simp [len, String.utf8ByteSize, String.utf8ByteSize.go, String.ext_iff]
    omega

theorem Itoa_natCast (n : Nat) : strconv.Itoa (n : Int) = Nat.repr n := by
  simp [strconv.Itoa]

theorem Create_eq (o : ClientOptions) :
    Create o =
      if o.Host = "" then (none, some "invalid host")
      else if o.ApiKey = "" then (none, some "invalid API key")
      else if o.DefaultChannel = "" then (none, some "invalid default channel")
      else (some (createdClient o), none) := by
  have hp : o.Port.val ≤ 65535 := by have := o.Port.isLt; omega
  have hp2 : ¬ (65535 < o.Port.val) := by omega
  by_cases h1 : o.Host = ""
  · simp [Create, len_eq_zero_iff, h1, Id.run, errors.New]
  · by_cases h2 : o.ApiKey = ""
    · simp [Create, len_eq_zero_iff, h1, h2, Id.run, errors.New, hp]
    · by_cases h3 : o.DefaultChannel = ""
      · simp [Create, len_eq_zero_iff, h1, h2, h3, Id.run, errors.New, hp]
      · cases hs : o.UseSsl <;> by_cases ht : o.TimeoutMs = 0 <;>
          simp [Create, len_eq_zero_iff, h1, h2, h3, Id.run, errors.New, createdClient, hp2,
            hs, ht]

theorem Create_ok_of_nonempty (o : ClientOptions) (hh : o.Host ≠ "") (hk : o.ApiKey ≠ "")
    (hc : o.DefaultChannel ≠ "") : Create o = (some (createdClient o), none) := by
  simp [Create_eq, hh, hk, hc]

theorem Create_ok_inv (o : ClientOptions) (c : ServerWatcherClient)
    (h : (Create o).1 = some c) :
    o.Host ≠ "" ∧ o.ApiKey ≠ "" ∧ o.DefaultChannel ≠ "" ∧ c = createdClient o := by
  rw [Create_eq] at h
  by_cases h1 : o.Host = ""
  · simp [h1] at h
  · by_cases h2 : o.ApiKey = ""
    · simp [h1, h2] at h
    · by_cases h3 : o.DefaultChannel = ""
      · simp [h1, h2, h3] at h
      · simp [h1, h2, h3] at h
        exact ⟨h1, h2, h3, h.symm⟩

theorem sendRequest_calls (w : World) (s : ServerWatcherClient) (api : String) (p : Payload)
    (hr : Bool) :
    (s.sendRequest w api p hr).1 =
      if w.NewRequest "POST" (s.url ++ "/" ++ api) = none then [Call.Do (s.newRequest api p)]
      else [] := by
  unfold ServerWatcherClient.sendRequest
  cases hn : w.NewRequest "POST" (s.url ++ "/" ++ api) with
  | some e => simp [Id.run]
  | none =>
    cases hd : w.Do (s.newRequest api p) with
    | error e => simp [Id.run, hd]
    | ok resp =>
      by_cases hc : resp.StatusCode = 200
      · cases hr <;> cases hb : resp.Body <;> simp [Id.run, hc, hb, hd]
      · cases hb : resp.Body with
        | error e => simp [Id.run, hc, hb, hd]
        | ok body => by_cases hl : len body = 0 <;> simp [Id.run, hc, hb, hd, hl]

theorem validateChannel_eq (s : ServerWatcherClient) (channel : String) :
    s.validateChannel channel = defaultChannelRule s channel := by
  by_cases h : channel = "" <;>
    simp [ServerWatcherClient.validateChannel, defaultChannelRule, Id.run, len_eq_zero_iff, h,
      ServerWatcherClient.GetDefaultChannel]

theorem notify_eq (w : World) (s : ServerWatcherClient) (message channel severity : String) :
    s.notify w message channel severity =
      if message = "" then ([], none)
      else
        (Call.Marshal (Payload.notify
            { Message := message, Channel := defaultChannelRule s channel, Severity := severity }) ::
          (s.sendRequest w "notify" (Payload.notify
            { Message := message, Channel := defaultChannelRule s channel, Severity := severity })
            false).1,
         (s.sendRequest w "notify" (Payload.notify
            { Message := message, Channel := defaultChannelRule s channel, Severity := severity })
            false).2.2) := by
  by_cases hm : message = "" <;>
    simp [ServerWatcherClient.notify, Id.run, len_eq_zero_iff, hm, validateChannel_eq]

theorem validateSeverity_eq (s : ServerWatcherClient) (severity : String) :
    s.validateSeverity severity =
      if severity = "" then ("error", none)
      else if severity = "error" ∨ severity = "warn" ∨ severity = "info" then (severity, none)
      else ("", some "invalid severity") := by
  by_cases h0 : severity = ""
  · simp [ServerWatcherClient.validateSeverity, Id.run, len_eq_zero_iff, h0]
  · by_cases h1 : severity = "error"
    · simp [ServerWatcherClient.validateSeverity, Id.run, len_eq_zero_iff, h1]
    · by_cases h2 : severity = "warn"
      · simp [ServerWatcherClient.validateSeverity, Id.run, len_eq_zero_iff, h2]
      · by_cases h3 : severity = "info"
        · simp [ServerWatcherClient.validateSeverity, Id.run, len_eq_zero_iff, h3]
        · simp [ServerWatcherClient.validateSeverity, Id.run, len_eq_zero_iff, h0, h1, h2, h3,
            errors.New]

theorem built_sendRequest (w : World) (s : ServerWatcherClient) (api : String) (p : Payload)
    (hr : Bool) : built (s.sendRequest w api p hr).1 = [] := by
  rw [sendRequest_calls]
  split <;> simp [built]

theorem dispatched_sendRequest (w : World) (s : ServerWatcherClient) (api : String)
    (p : Payload) (hr : Bool) :
    dispatched (s.sendRequest w api p hr).1 =
      if w.NewRequest "POST" (s.url ++ "/" ++ api) = none then [s.newRequest api p] else [] := by
  rw [sendRequest_calls]
  split <;> simp [dispatched]

theorem newRequest_fields (s : ServerWatcherClient) (api : String) (p : Payload) :
    (s.newRequest api p).Method = "POST" ∧ (s.newRequest api p).URL = s.url ++ "/" ++ api ∧
      (s.newRequest api p).Body = p := by
  simp [ServerWatcherClient.newRequest, Id.run]

theorem ProcessUnwatch_eq (w : World) (s : ServerWatcherClient) (pid : Int) (channel : String) :
    s.ProcessUnwatch w pid channel =
      if pid < 0 then ([], some "invalid process id")
      else
        (Call.Marshal (Payload.processUnwatch
            { Pid := resolvedPid w pid, Channel := defaultChannelRule s channel }) ::
          (s.sendRequest w "process/unwatch" (Payload.processUnwatch
            { Pid := resolvedPid w pid, Channel := defaultChannelRule s channel }) false).1,
         (s.sendRequest w "process/unwatch" (Payload.processUnwatch
            { Pid := resolvedPid w pid, Channel := defaultChannelRule s channel }) false).2.2) := by
  by_cases h0 : pid = 0
  · simp [ServerWatcherClient.ProcessUnwatch, Id.run, h0, resolvedPid, validateChannel_eq]
  · by_cases h1 : pid < 1
    · have : pid < 0 := by omega
      simp [ServerWatcherClient.ProcessUnwatch, Id.run, h0, h1, this, errors.New]
    · have : ¬ pid < 0 := by omega
      simp [ServerWatcherClient.ProcessUnwatch, Id.run, h0, h1, this, resolvedPid,
        validateChannel_eq]

theorem ProcessWatch_eq (w : World) (s : ServerWatcherClient) (pid : Int)
    (name severity channel : String) :
    s.ProcessWatch w pid name severity channel =
      if pid < 0 then ([], some "invalid process id")
      else
        match resolvedName w name with
        | .error err => ([], some err)
        | .ok nm =>
          if severity = "" ∨ severity = "error" ∨ severity = "warn" ∨ severity = "info" then
            (Call.Marshal (Payload.processWatch
                { Pid := resolvedPid w pid, Name := nm,
                  Channel := defaultChannelRule s channel,
                  Severity := if severity = "" then "error" else severity }) ::
              (s.sendRequest w "process/watch" (Payload.processWatch
                { Pid := resolvedPid w pid, Name := nm,
                  Channel := defaultChannelRule s channel,
                  Severity := if severity = "" then "error" else severity }) false).1,
             (s.sendRequest w "process/watch" (Payload.processWatch
                { Pid := resolvedPid w pid, Name := nm,
                  Channel := defaultChannelRule s channel,
                  Severity := if severity = "" then "error" else severity }) false).2.2)
          else ([], some "invalid severity") := by
  have hneg : pid < 0 ↔ (¬ pid = 0 ∧ pid < 1) := by omega
  simp only [hneg]
  by_cases h0 : pid = 0 <;> by_cases h1 : pid < 1 <;> by_cases hn : name = "" <;>
    cases he : w.Executable <;> by_cases s0 : severity = "" <;>
    by_cases s1 : (severity = "error" ∨ severity = "warn" ∨ severity = "info") <;>
    simp [ServerWatcherClient.ProcessWatch, Id.run, resolvedName, len_eq_zero_iff, hn, he,
      validateSeverity_eq, validateChannel_eq, resolvedPid, s0, s1, h0, h1, errors.New]

theorem slash_notify (u : String) : u ++ "/" ++ "notify" = u ++ "/notify" := by
  rw [String.append_assoc]
  rfl

theorem channel_of_calls (w : World) (s : ServerWatcherClient) (api : String) (p : Payload)
    (ch : String) (hp : p.Channel = ch) :
    (∀ q ∈ built (Call.Marshal p :: (s.sendRequest w api p false).1), q.Channel = ch) ∧
    (∀ r ∈ dispatched (Call.Marshal p :: (s.sendRequest w api p false).1),
      r.Body.Channel = ch) := by
  constructor
  · intro q hq
    simp [built, built_sendRequest] at hq
    rw [hq, hp]
  · intro r hr
    simp only [dispatched, dispatched_sendRequest] at hr
    split at hr
    · simp at hr
      rw [hr, (newRequest_fields s api p).2.2, hp]
    · simp at hr

theorem channel_of_nil (ch : String) :
    (∀ q ∈ built ([] : List Call), q.Channel = ch) ∧
    (∀ r ∈ dispatched ([] : List Call), r.Body.Channel = ch) := by
  simp [built, dispatched]

theorem notify_channel (w : World) (s : ServerWatcherClient)
    (message channel severity : String) :
    (∀ q ∈ built (s.notify w message channel severity).1,
      q.Channel = defaultChannelRule s channel) ∧
    (∀ r ∈ dispatched (s.notify w message channel severity).1,
      r.Body.Channel = defaultChannelRule s channel) := by
  rw [notify_eq]
  split
  · exact channel_of_nil _
  · exact channel_of_calls w s _ _ _ rfl

theorem ProcessUnwatch_channel (w : World) (s : ServerWatcherClient) (pid : Int)
    (channel : String) :
    (∀ q ∈ built (s.ProcessUnwatch w pid channel).1,
      q.Channel = defaultChannelRule s channel) ∧
    (∀ r ∈ dispatched (s.ProcessUnwatch w pid channel).1,
      r.Body.Channel = defaultChannelRule s channel) := by
  rw [ProcessUnwatch_eq]
  split
  · exact channel_of_nil _
  · exact channel_of_calls w s _ _ _ rfl

theorem ProcessWatch_channel (w : World) (s : ServerWatcherClient) (pid : Int)
    (name severity channel : String) :
    (∀ q ∈ built (s.ProcessWatch w pid name severity channel).1,
      q.Channel = defaultChannelRule s channel) ∧
    (∀ r ∈ dispatched (s.ProcessWatch w pid name severity channel).1,
      r.Body.Channel = defaultChannelRule s channel) := by
  rw [ProcessWatch_eq]
  split
  · exact channel_of_nil _
  · split
    · exact channel_of_nil _
    · split
      · exact channel_of_calls w s _ _ _ rfl
      · exact channel_of_nil _

theorem notify_dispatched (w : World) (s : ServerWatcherClient)
    (message channel severity : String) (hm : message ≠ "")
    (hreq : w.NewRequest "POST" (s.url ++ "/notify") = none) :
    ∃ r, dispatched (s.notify w message channel severity).1 = [r] ∧ r.Method = "POST" ∧
      r.URL = s.url ++ "/notify" ∧
      r.Body = Payload.notify
        { Message := message, Channel := defaultChannelRule s channel, Severity := severity } := by
  refine ⟨s.newRequest "notify" (Payload.notify
    { Message := message, Channel := defaultChannelRule s channel, Severity := severity }),
    ?_, ?_, ?_, ?_⟩
  · rw [notify_eq]
    simp [hm, dispatched, dispatched_sendRequest, slash_notify, hreq]
  · exact (newRequest_fields s _ _).1
  · rw [(newRequest_fields s _ _).2.1, slash_notify]
  · exact (newRequest_fields s _ _).2.2

theorem ProcessUnwatch_pid (w : World) (s : ServerWatcherClient) (pid : Int)
    (channel : String) (h : ¬ pid < 0) :
    built (s.ProcessUnwatch w pid channel).1 =
      [Payload.processUnwatch
        { Pid := resolvedPid w pid, Channel := defaultChannelRule s channel }] ∧
    (∀ r ∈ dispatched (s.ProcessUnwatch w pid channel).1,
      r.Body = Payload.processUnwatch
        { Pid := resolvedPid w pid, Channel := defaultChannelRule s channel }) := by
  rw [ProcessUnwatch_eq]
  simp only [h, if_false]
  constructor
  · simp [built, built_sendRequest]
  · intro r hr
    simp only [dispatched, dispatched_sendRequest] at hr
    split at hr
    · simp at hr
      rw [hr, (newRequest_fields s _ _).2.2]
    · simp at hr

theorem ProcessWatch_pid (w : World) (s : ServerWatcherClient) (pid : Int)
    (name severity channel : String) :
    (∀ v, Payload.processWatch v ∈ built (s.ProcessWatch w pid name severity channel).1 →
      v.Pid = resolvedPid w pid) ∧
    (∀ r ∈ dispatched (s.ProcessWatch w pid name severity channel).1,
      ∃ v, r.Body = Payload.processWatch v ∧ v.Pid = resolvedPid w pid) := by
  rw [ProcessWatch_eq]
  split
  · simp [built, dispatched]
  · split
    · simp [built, dispatched]
    · split
      · constructor
        · intro v hv
          simp [built, built_sendRequest] at hv
          rw [hv]
        · intro r hr
          simp only [dispatched, dispatched_sendRequest] at hr
          split at hr
          · simp at hr
            exact ⟨_, by rw [hr, (newRequest_fields s _ _).2.2], rfl⟩
          · simp at hr
      · simp [built, dispatched]

theorem notify_built (w : World) (s : ServerWatcherClient)
    (message channel severity : String) (hm : message ≠ "") :
    built (s.notify w message channel severity).1 =
      [Payload.notify
        { Message := message, Channel := defaultChannelRule s channel,
          Severity := severity }] := by
  rw [notify_eq]
  simp [hm, built, built_sendRequest]

theorem ProcessWatch_built (w : World) (s : ServerWatcherClient) (pid : Int)
    (name severity channel nm : String) (hpid : 0 ≤ pid)
    (hname : resolvedName w name = .ok nm)
    (hsev : severity = "" ∨ severity = "error" ∨ severity = "warn" ∨ severity = "info") :
    built (s.ProcessWatch w pid name severity channel).1 =
      [Payload.processWatch
        { Pid := resolvedPid w pid, Name := nm, Channel := defaultChannelRule s channel,
          Severity := if severity = "" then "error" else severity }] := by
  have hn : ¬ pid < 0 := by omega
  rw [ProcessWatch_eq]
  simp only [hn, if_false, hname, hsev, if_true]
  simp [built, built_sendRequest]

theorem dispatched_marshal (w : World) (s : ServerWatcherClient) (api : String)
    (p : Payload) :
    dispatched (Call.Marshal p :: (s.sendRequest w api p false).1) =
      if w.NewRequest "POST" (s.url ++ "/" ++ api) = none then
        (built (Call.Marshal p :: (s.sendRequest w api p false).1)).map (s.newRequest api)
      else [] := by
  simp only [dispatched, built, dispatched_sendRequest, built_sendRequest]
  split <;> simp

theorem dispatched_nil (w : World) (s : ServerWatcherClient) (api : String) :
    dispatched ([] : List Call) =
      if w.NewRequest "POST" (s.url ++ "/" ++ api) = none then
        (built ([] : List Call)).map (s.newRequest api)
      else [] := by
  simp [dispatched, built]

theorem notify_dispatched_built (w : World) (s : ServerWatcherClient)
    (message channel severity : String) :
    dispatched (s.notify w message channel severity).1 =
      if w.NewRequest "POST" (s.url ++ "/" ++ "notify") = none then
        (built (s.notify w message channel severity).1).map (s.newRequest "notify")
      else [] := by
  rw [notify_eq]
  split
  · exact dispatched_nil w s _
  · exact dispatched_marshal w s _ _

theorem ProcessUnwatch_dispatched_built (w : World) (s : ServerWatcherClient) (pid : Int)
    (channel : String) :
    dispatched (s.ProcessUnwatch w pid channel).1 =
      if w.NewRequest "POST" (s.url ++ "/" ++ "process/unwatch") = none then
        (built (s.ProcessUnwatch w pid channel).1).map (s.newRequest "process/unwatch")
      else [] := by
  rw [ProcessUnwatch_eq]
  split
  · exact dispatched_nil w s _
  · exact dispatched_marshal w s _ _

theorem ProcessWatch_dispatched_built (w : World) (s : ServerWatcherClient) (pid : Int)
    (name severity channel : String) :
    dispatched (s.ProcessWatch w pid name severity channel).1 =
      if w.NewRequest "POST" (s.url ++ "/" ++ "process/watch") = none then
        (built (s.ProcessWatch w pid name severity channel).1).map
          (s.newRequest "process/watch")
      else [] := by
  rw [ProcessWatch_eq]
  split
  · exact dispatched_nil w s _
  · split
    · exact dispatched_nil w s _
    · split
      · exact dispatched_marshal w s _ _
      · exact dispatched_nil w s _

theorem resolvedPid_zero (w : World) : resolvedPid w 0 = w.Getpid := by
  simp [resolvedPid]

theorem resolvedPid_pos (w : World) (pid : Int) (h : 0 < pid) : resolvedPid w pid = pid := by
  have : pid ≠ 0 := by omega
  simp [resolvedPid, this]

/-! ## Claims about `Create` -/

/-- C1: for every `ClientOptions` value the error returned by `Create` is the reason of the
first violated condition in the order host, port, API key, default channel; an error comes
with no client; and `Create` returns a client and no error exactly when none of the four
conditions is violated. -/
theorem Create_first_violation (o : ClientOptions) :
    (Create o).2 = firstViolation o ∧
    ((Create o).2 ≠ none → (Create o).1 = none) ∧
    (((Create o).1 ≠ none ∧ (Create o).2 = none) ↔
      (o.Host ≠ "" ∧ (0 ≤ o.Port.val ∧ o.Port.val ≤ 65535) ∧ o.ApiKey ≠ "" ∧
        o.DefaultChannel ≠ "")) := by
  have hp : o.Port.val ≤ 65535 := by have := o.Port.isLt; omega
  rw [Create_eq]
  by_cases h1 : o.Host = ""
  · simp [firstViolation, h1]
  · by_cases h2 : o.ApiKey = ""
    · simp [firstViolation, h1, h2, hp]
    · by_cases h3 : o.DefaultChannel = ""
      · simp [firstViolation, h1, h2, h3, hp]
      · simp [firstViolation, h1, h2, h3, hp]

/-- C2, as stated, fails: no `ClientOptions` value with a non-empty host, API key and
default channel makes `Create` fail, whatever its port, because `Port` is a `uint16`.  The
number 70000 is not a `uint16`; converted to one it is 4464, and `Create` then returns a
client for port 4464 and no error. -/
theorem Create_port_70000_not_rejected :
    (¬ ∃ o : ClientOptions, o.Host ≠ "" ∧ o.ApiKey ≠ "" ∧ o.DefaultChannel ≠ "" ∧
      ((Create o).1 = none ∨ (Create o).2 ≠ none)) ∧
    (uint16.ofNat 70000).val = 4464 ∧
    Create { Host := "127.0.0.1", Port := uint16.ofNat 70000, ApiKey := "set-some-key",
             DefaultChannel := "default" } =
      (some { url := "http://127.0.0.1:4464", apiKey := "set-some-key",
              defaultChannel := "default", timeoutMs := 30000 }, none) := by
  refine ⟨?_, by decide, by decide⟩
  rintro ⟨o, hh, hk, hc, h⟩
  rw [Create_ok_of_nonempty o hh hk hc] at h
  simp at h

/-- C2, amended: `Create` called with a non-empty host, API key and default channel
returns a client and no error for every port value the `uint16` field can hold; the port
is never a cause of failure. -/
theorem Create_accepts_every_port (o : ClientOptions) (hh : o.Host ≠ "") (hk : o.ApiKey ≠ "")
    (hc : o.DefaultChannel ≠ "") :
    ∀ p : uint16, ∃ c, Create { o with Port := p } = (some c, none) := by
  intro p
  exact ⟨_, Create_ok_of_nonempty { o with Port := p } hh hk hc⟩

/-- C2, amended, at the demo options with the largest port. -/
theorem Create_accepts_every_port_witness :
    (demoOptions.Host ≠ "" ∧ demoOptions.ApiKey ≠ "" ∧ demoOptions.DefaultChannel ≠ "") ∧
    ∃ c, Create { demoOptions with Port := 65535 } = (some c, none) :=
  ⟨by decide,
   Create_accepts_every_port demoOptions (by decide) (by decide) (by decide) 65535⟩

/-- C3: for every `ClientOptions` value accepted by `Create`, the base URL of the returned
client is `"http" ++ ("s" if UseSsl else "") ++ "://" ++ Host ++ ":" ++` the decimal
rendering of `Port`; it starts with `"https://"` exactly when `UseSsl` is set and with
`"http://"` exactly when it is not. -/
theorem Create_url (o : ClientOptions) (c : ServerWatcherClient)
    (h : Create o = (some c, none)) :
    c.url = "http" ++ (if o.UseSsl then "s" else "") ++ "://" ++ o.Host ++ ":" ++
        Nat.repr o.Port.val ∧
    (startsWith c.url "https://" = true ↔ o.UseSsl = true) ∧
    (startsWith c.url "http://" = true ↔ o.UseSsl = false) := by
  obtain ⟨-, -, -, rfl⟩ := Create_ok_inv o c (by rw [h])
  refine ⟨?_, ?_, ?_⟩
  · simp [createdClient, Itoa_natCast, String.append_assoc]
  · cases hs : o.UseSsl
    · simp [createdClient, startsWith, String.data_append, hs]
    · simp [createdClient, startsWith, String.data_append, hs]
  · cases hs : o.UseSsl
    · simp [createdClient, startsWith, String.data_append, hs]
    · simp [createdClient, startsWith, String.data_append, hs]

/-- C3 at the TLS options: the URL is `https://watchdog.example.org:65535`. -/
theorem Create_url_witness :
    Create tlsOptions = (some tlsClient, none) ∧
    tlsClient.url = "https://watchdog.example.org:65535" ∧
    (tlsClient.url = "http" ++ (if tlsOptions.UseSsl then "s" else "") ++ "://" ++
        tlsOptions.Host ++ ":" ++ Nat.repr tlsOptions.Port.val ∧
      (startsWith tlsClient.url "https://" = true ↔ tlsOptions.UseSsl = true) ∧
      (startsWith tlsClient.url "http://" = true ↔ tlsOptions.UseSsl = false)) :=
  ⟨by decide, by decide, Create_url tlsOptions tlsClient (by decide)⟩

/-- C4: for every `ClientOptions` value accepted by `Create`, `GetDefaultChannel` on the
returned client is the configured `DefaultChannel`, the client's timeout is the configured
`TimeoutMs` when that is non-zero and 30000 when it is zero, and the timeout is strictly
positive. -/
theorem Create_channel_timeout (o : ClientOptions) (c : ServerWatcherClient)
    (h : Create o = (some c, none)) :
    c.GetDefaultChannel = o.DefaultChannel ∧
    (o.TimeoutMs ≠ 0 → c.timeoutMs = o.TimeoutMs) ∧
    (o.TimeoutMs = 0 → c.timeoutMs = 30000) ∧
    0 < c.timeoutMs.val := by
  obtain ⟨-, -, -, rfl⟩ := Create_ok_inv o c (by rw [h])
  refine ⟨rfl, ?_, ?_, ?_⟩
  · intro ht
    simp [createdClient, ht]
  · intro ht
    simp [createdClient, ht]
  · by_cases ht : o.TimeoutMs = 0
    · simp only [createdClient, ht, if_true]
      decide
    · have : o.TimeoutMs.val ≠ 0 := fun hv => ht (Fin.ext hv)
      simp only [createdClient, ht, if_false]
      omega

/-- C4 at the demo options, whose timeout is left at zero: the client's timeout is 30000. -/
theorem Create_channel_timeout_witness :
    Create demoOptions = (some demoClient, none) ∧
    (demoClient.GetDefaultChannel = demoOptions.DefaultChannel ∧
      (demoOptions.TimeoutMs ≠ 0 → demoClient.timeoutMs = demoOptions.TimeoutMs) ∧
      (demoOptions.TimeoutMs = 0 → demoClient.timeoutMs = 30000) ∧
      0 < demoClient.timeoutMs.val) :=
  ⟨by decide, Create_channel_timeout demoOptions demoClient (by decide)⟩

/-! ## Claims about the operations -/

/-- C5: for every client returned by `Create` and every caller-supplied channel, the channel
the default-channel rule yields is never empty, and each of the five operations puts it in
its payload.  `Error`, `Warn` and `Info` with a non-empty message build exactly one payload,
with that channel; `ProcessUnwatch` with a pid >= 0 builds exactly one payload, with that
channel; `ProcessWatch` with a pid >= 0, a resolved name and an accepted severity builds
exactly one payload, with that channel.  Every payload any of them builds, and the body of
every request any of them dispatches, carries that channel; and whenever the request can
be constructed the requests dispatched are exactly the payloads built. -/
theorem payload_channel_resolved (w : World) (o : ClientOptions) (s : ServerWatcherClient)
    (h : Create o = (some s, none)) (message name severity channel : String) (pid : Int) :
    defaultChannelRule s channel ≠ "" ∧
    (∀ calls ∈ [(s.Error w message channel).1, (s.Warn w message channel).1,
        (s.Info w message channel).1, (s.ProcessWatch w pid name severity channel).1,
        (s.ProcessUnwatch w pid channel).1],
      (∀ p ∈ built calls, p.Channel = defaultChannelRule s channel) ∧
      (∀ r ∈ dispatched calls, r.Body.Channel = defaultChannelRule s channel)) ∧
    (message ≠ "" →
      built (s.Error w message channel).1 =
        [Payload.notify { Message := message, Channel := defaultChannelRule s channel,
                          Severity := "error" }] ∧
      built (s.Warn w message channel).1 =
        [Payload.notify { Message := message, Channel := defaultChannelRule s channel,
                          Severity := "warn" }] ∧
      built (s.Info w message channel).1 =
        [Payload.notify { Message := message, Channel := defaultChannelRule s channel,
                          Severity := "info" }]) ∧
    (0 ≤ pid → ∀ nm, resolvedName w name = .ok nm →
      (severity = "" ∨ severity = "error" ∨ severity = "warn" ∨ severity = "info") →
      built (s.ProcessWatch w pid name severity channel).1 =
        [Payload.processWatch
          { Pid := resolvedPid w pid, Name := nm, Channel := defaultChannelRule s channel,
            Severity := if severity = "" then "error" else severity }]) ∧
    (0 ≤ pid →
      built (s.ProcessUnwatch w pid channel).1 =
        [Payload.processUnwatch
          { Pid := resolvedPid w pid, Channel := defaultChannelRule s channel }]) ∧
    (∀ ca ∈ [((s.Error w message channel).1, "notify"),
        ((s.Warn w message channel).1, "notify"), ((s.Info w message channel).1, "notify"),
        ((s.ProcessWatch w pid name severity channel).1, "process/watch"),
        ((s.ProcessUnwatch w pid channel).1, "process/unwatch")],
      dispatched ca.1 =
        if w.NewRequest "POST" (s.url ++ "/" ++ ca.2) = none then
          (built ca.1).map (s.newRequest ca.2)
        else []) := by
  obtain ⟨-, -, hc, rfl⟩ := Create_ok_inv o s (by rw [h])
  refine ⟨?_, ?_, ?_, ?_, ?_, ?_⟩
  · by_cases hch : channel = ""
    · simpa [defaultChannelRule, hch, ServerWatcherClient.GetDefaultChannel, createdClient]
        using hc
    · simp [defaultChannelRule, hch]
  · intro calls hcalls
    simp only [List.mem_cons, List.mem_singleton, List.not_mem_nil, or_false] at hcalls
    rcases hcalls with rfl | rfl | rfl | rfl | rfl
    · exact notify_channel w _ message channel "error"
    · exact notify_channel w _ message channel "warn"
    · exact notify_channel w _ message channel "info"
    · exact ProcessWatch_channel w _ pid name severity channel
    · exact ProcessUnwatch_channel w _ pid channel
  · intro hm
    exact ⟨notify_built w _ message channel "error" hm,
      notify_built w _ message channel "warn" hm, notify_built w _ message channel "info" hm⟩
  · intro hpid nm hname hsev
    exact ProcessWatch_built w _ pid name severity channel nm hpid hname hsev
  · intro hpid
    exact (ProcessUnwatch_pid w _ pid channel (by omega)).1
  · intro ca hca
    simp only [List.mem_cons, List.mem_singleton, List.not_mem_nil, or_false] at hca
    rcases hca with rfl | rfl | rfl | rfl | rfl
    · exact notify_dispatched_built w _ message channel "error"
    · exact notify_dispatched_built w _ message channel "warn"
    · exact notify_dispatched_built w _ message channel "info"
    · exact ProcessWatch_dispatched_built w _ pid name severity channel
    · exact ProcessUnwatch_dispatched_built w _ pid channel

/-- C5 at the demo client: with the empty channel each of the five operations builds and
dispatches one payload with channel `default`; with the channel `alerts` each builds and
dispatches one payload with channel `alerts`. -/
theorem payload_channel_resolved_witness :
    Create demoOptions = (some demoClient, none) ∧
    ([demoClient.Error okWorld "boom" "", demoClient.Warn okWorld "boom" "",
        demoClient.Info okWorld "boom" "", demoClient.ProcessWatch okWorld 0 "" "" "",
        demoClient.ProcessUnwatch okWorld 0 ""].map
        (fun r => ((built r.1).map Payload.Channel,
          (dispatched r.1).map (fun q => q.Body.Channel))) =
      [(["default"], ["default"]), (["default"], ["default"]), (["default"], ["default"]),
       (["default"], ["default"]), (["default"], ["default"])]) ∧
    ([demoClient.Error okWorld "boom" "alerts", demoClient.Warn okWorld "boom" "alerts",
        demoClient.Info okWorld "boom" "alerts",
        demoClient.ProcessWatch okWorld 7 "x" "warn" "alerts",
        demoClient.ProcessUnwatch okWorld 7 "alerts"].map
        (fun r => ((built r.1).map Payload.Channel,
          (dispatched r.1).map (fun q => q.Body.Channel))) =
      [(["alerts"], ["alerts"]), (["alerts"], ["alerts"]), (["alerts"], ["alerts"]),
       (["alerts"], ["alerts"]), (["alerts"], ["alerts"])]) ∧
    (built (demoClient.Error okWorld "boom" "alerts").1 =
        [Payload.notify { Message := "boom", Channel := defaultChannelRule demoClient "alerts",
                          Severity := "error" }] ∧
      built (demoClient.Warn okWorld "boom" "alerts").1 =
        [Payload.notify { Message := "boom", Channel := defaultChannelRule demoClient "alerts",
                          Severity := "warn" }] ∧
      built (demoClient.Info okWorld "boom" "alerts").1 =
        [Payload.notify { Message := "boom", Channel := defaultChannelRule demoClient "alerts",
                          Severity := "info" }]) ∧
    built (demoClient.ProcessWatch okWorld 7 "x" "warn" "alerts").1 =
      [Payload.processWatch
        { Pid := resolvedPid okWorld 7, Name := "x",
          Channel := defaultChannelRule demoClient "alerts",
          Severity := if ("warn" : String) = "" then "error" else "warn" }] ∧
    built (demoClient.ProcessUnwatch okWorld 7 "alerts").1 =
      [Payload.processUnwatch
        { Pid := resolvedPid okWorld 7, Channel := defaultChannelRule demoClient "alerts" }] :=
  ⟨by decide, by decide, by decide,
   (payload_channel_resolved okWorld demoOptions demoClient (by decide)
      "boom" "x" "warn" "alerts" 7).2.2.1 (by decide),
   (payload_channel_resolved okWorld demoOptions demoClient (by decide)
      "boom" "x" "warn" "alerts" 7).2.2.2.1 (by decide) "x" rfl (by decide),
   (payload_channel_resolved okWorld demoOptions demoClient (by decide)
      "boom" "x" "warn" "alerts" 7).2.2.2.2.1 (by decide)⟩

/-- C6: for every client, every channel and every behaviour of the library and the server,
`Error`, `Warn` and `Info` called with the empty message make no call at all (no payload is
built, no request is sent) and return no error. -/
theorem notify_empty_message (w : World) (s : ServerWatcherClient) (channel : String) :
    s.Error w "" channel = ([], none) ∧
    s.Warn w "" channel = ([], none) ∧
    s.Info w "" channel = ([], none) := by
  simp [ServerWatcherClient.Error, ServerWatcherClient.Warn, ServerWatcherClient.Info,
    notify_eq]

/-- C7, as stated, fails: `Create` accepts the host `a b`, and for the client it returns
`Error` with the non-empty message `boom` dispatches no request when `http.NewRequest`
refuses the URL `http://a b:80/notify`; the refusal is returned as the error. -/
theorem Error_undispatched_when_url_refused :
    Create spacedHostOptions = (some spacedHostClient, none) ∧
    dispatched (spacedHostClient.Error strictWorld "boom" "").1 = [] ∧
    (spacedHostClient.Error strictWorld "boom" "").2 =
      some "net/url: invalid character in host name" := by
  decide

/-- C7, amended: for every client and every non-empty message for which `http.NewRequest`
accepts the URL base URL ++ "/notify", `Error`, `Warn` and `Info` each dispatch exactly one
request, a POST to that URL whose payload has the given message, the channel resolved by
the default-channel rule, and the severity `error`, `warn` and `info` respectively. -/
theorem notify_dispatches_one_post (w : World) (s : ServerWatcherClient)
    (message channel : String) (hm : message ≠ "")
    (hreq : w.NewRequest "POST" (s.url ++ "/notify") = none) :
    (∃ r, dispatched (s.Error w message channel).1 = [r] ∧ r.Method = "POST" ∧
      r.URL = s.url ++ "/notify" ∧
      r.Body = Payload.notify
        { Message := message, Channel := defaultChannelRule s channel, Severity := "error" }) ∧
    (∃ r, dispatched (s.Warn w message channel).1 = [r] ∧ r.Method = "POST" ∧
      r.URL = s.url ++ "/notify" ∧
      r.Body = Payload.notify
        { Message := message, Channel := defaultChannelRule s channel, Severity := "warn" }) ∧
    (∃ r, dispatched (s.Info w message channel).1 = [r] ∧ r.Method = "POST" ∧
      r.URL = s.url ++ "/notify" ∧
      r.Body = Payload.notify
        { Message := message, Channel := defaultChannelRule s channel, Severity := "info" }) :=
  ⟨notify_dispatched w s message channel "error" hm hreq,
   notify_dispatched w s message channel "warn" hm hreq,
   notify_dispatched w s message channel "info" hm hreq⟩

/-- C7, amended, at `Error("boom", "")` on the demo client: one POST to
`http://127.0.0.1:3004/notify` with message `boom`, channel `default`, severity `error`. -/
theorem notify_dispatches_one_post_witness :
    ("boom" ≠ "" ∧ okWorld.NewRequest "POST" (demoClient.url ++ "/notify") = none) ∧
    (dispatched (demoClient.Error okWorld "boom" "").1).map (fun r => (r.Method, r.URL, r.Body))
      = [("POST", "http://127.0.0.1:3004/notify",
          Payload.notify { Message := "boom", Channel := "default", Severity := "error" })] ∧
    ((∃ r, dispatched (demoClient.Error okWorld "boom" "").1 = [r] ∧ r.Method = "POST" ∧
      r.URL = demoClient.url ++ "/notify" ∧
      r.Body = Payload.notify
        { Message := "boom", Channel := defaultChannelRule demoClient "",
          Severity := "error" }) ∧
    (∃ r, dispatched (demoClient.Warn okWorld "boom" "").1 = [r] ∧ r.Method = "POST" ∧
      r.URL = demoClient.url ++ "/notify" ∧
      r.Body = Payload.notify
        { Message := "boom", Channel := defaultChannelRule demoClient "",
          Severity := "warn" }) ∧
    (∃ r, dispatched (demoClient.Info okWorld "boom" "").1 = [r] ∧ r.Method = "POST" ∧
      r.URL = demoClient.url ++ "/notify" ∧
      r.Body = Payload.notify
        { Message := "boom", Channel := defaultChannelRule demoClient "",
          Severity := "info" })) :=
  ⟨by decide, by decide,
   notify_dispatches_one_post okWorld demoClient "boom" "" (by decide) (by decide)⟩

/-- C8: for `ProcessWatch` and `ProcessUnwatch` alike and every other argument: a negative
pid makes the call return the `invalid process id` error with no call made.  A pid of 0 is
accepted and the caller's own process id is put in the payload; a positive pid is accepted
and put in the payload unchanged: `ProcessUnwatch` builds exactly one payload, with that
pid, and so does `ProcessWatch` once the name is resolved and the severity accepted (the
two later checks of `ProcessWatch`).  Every payload built and every request body dispatched
carries that pid, and whenever the request can be constructed the requests dispatched are
exactly the payloads built. -/
theorem pid_validation (w : World) (s : ServerWatcherClient) (pid : Int)
    (name severity channel : String) :
    (pid < 0 →
      s.ProcessWatch w pid name severity channel = ([], some "invalid process id") ∧
      s.ProcessUnwatch w pid channel = ([], some "invalid process id")) ∧
    (pid = 0 →
      (∀ v, Payload.processWatch v ∈ built (s.ProcessWatch w pid name severity channel).1 →
        v.Pid = w.Getpid) ∧
      (∀ r ∈ dispatched (s.ProcessWatch w pid name severity channel).1,
        ∃ v, r.Body = Payload.processWatch v ∧ v.Pid = w.Getpid) ∧
      built (s.ProcessUnwatch w pid channel).1 =
        [Payload.processUnwatch
          { Pid := w.Getpid, Channel := defaultChannelRule s channel }] ∧
      (∀ r ∈ dispatched (s.ProcessUnwatch w pid channel).1,
        r.Body = Payload.processUnwatch
          { Pid := w.Getpid, Channel := defaultChannelRule s channel }) ∧
      (∀ nm, resolvedName w name = .ok nm →
        (severity = "" ∨ severity = "error" ∨ severity = "warn" ∨ severity = "info") →
        built (s.ProcessWatch w pid name severity channel).1 =
          [Payload.processWatch
            { Pid := w.Getpid, Name := nm, Channel := defaultChannelRule s channel,
              Severity := if severity = "" then "error" else severity }])) ∧
    (0 < pid →
      (∀ v, Payload.processWatch v ∈ built (s.ProcessWatch w pid name severity channel).1 →
        v.Pid = pid) ∧
      (∀ r ∈ dispatched (s.ProcessWatch w pid name severity channel).1,
        ∃ v, r.Body = Payload.processWatch v ∧ v.Pid = pid) ∧
      built (s.ProcessUnwatch w pid channel).1 =
        [Payload.processUnwatch { Pid := pid, Channel := defaultChannelRule s channel }] ∧
      (∀ r ∈ dispatched (s.ProcessUnwatch w pid channel).1,
        r.Body = Payload.processUnwatch
          { Pid := pid, Channel := defaultChannelRule s channel }) ∧
      (∀ nm, resolvedName w name = .ok nm →
        (severity = "" ∨ severity = "error" ∨ severity = "warn" ∨ severity = "info") →
        built (s.ProcessWatch w pid name severity channel).1 =
          [Payload.processWatch
            { Pid := pid, Name := nm, Channel := defaultChannelRule s channel,
              Severity := if severity = "" then "error" else severity }])) ∧
    (dispatched (s.ProcessWatch w pid name severity channel).1 =
        if w.NewRequest "POST" (s.url ++ "/" ++ "process/watch") = none then
          (built (s.ProcessWatch w pid name severity channel).1).map
            (s.newRequest "process/watch")
        else []) ∧
    (dispatched (s.ProcessUnwatch w pid channel).1 =
        if w.NewRequest "POST" (s.url ++ "/" ++ "process/unwatch") = none then
          (built (s.ProcessUnwatch w pid channel).1).map (s.newRequest "process/unwatch")
        else []) := by
  have hw := ProcessWatch_pid w s pid name severity channel
  have hu := ProcessUnwatch_pid w s pid channel
  have hb := ProcessWatch_built w s pid name severity channel
  refine ⟨?_, ?_, ?_, ProcessWatch_dispatched_built w s pid name severity channel,
    ProcessUnwatch_dispatched_built w s pid channel⟩
  · intro h
    simp [ProcessWatch_eq, ProcessUnwatch_eq, h]
  · intro h
    have hr : resolvedPid w pid = w.Getpid := by rw [h]; exact resolvedPid_zero w
    have hn : ¬ pid < 0 := by omega
    rw [hr] at hw hu hb
    exact ⟨hw.1, hw.2, (hu hn).1, (hu hn).2, fun nm h1 h2 => hb nm (by omega) h1 h2⟩
  · intro h
    have hr : resolvedPid w pid = pid := resolvedPid_pos w pid h
    have hn : ¬ pid < 0 := by omega
    rw [hr] at hw hu hb
    exact ⟨hw.1, hw.2, (hu hn).1, (hu hn).2, fun nm h1 h2 => hb nm (by omega) h1 h2⟩

/-- C8 at the demo client: pid -1 is refused with no call made; pid 0 becomes the caller's
process id 4242; pids 1 and 5 are accepted and stay 1 and 5, in the payload built and in
the request dispatched, for both operations. -/
theorem pid_validation_witness :
    (demoClient.ProcessWatch okWorld (-1) "x" "error" "c" = ([], some "invalid process id") ∧
      demoClient.ProcessUnwatch okWorld (-1) "c" = ([], some "invalid process id")) ∧
    built (demoClient.ProcessWatch okWorld 0 "" "" "").1 =
      [Payload.processWatch { Pid := 4242, Name := "/usr/local/bin/demo",
                              Channel := "default", Severity := "error" }] ∧
    built (demoClient.ProcessUnwatch okWorld 0 "").1 =
      [Payload.processUnwatch { Pid := 4242, Channel := "default" }] ∧
    built (demoClient.ProcessWatch okWorld 5 "x" "info" "c").1 =
      [Payload.processWatch { Pid := 5, Name := "x", Channel := "c", Severity := "info" }] ∧
    built (demoClient.ProcessUnwatch okWorld 5 "c").1 =
      [Payload.processUnwatch { Pid := 5, Channel := "c" }] ∧
    built (demoClient.ProcessWatch okWorld 1 "x" "" "c").1 =
      [Payload.processWatch
        { Pid := 1, Name := "x", Channel := defaultChannelRule demoClient "c",
          Severity := if ("" : String) = "" then "error" else "" }] ∧
    (dispatched (demoClient.ProcessWatch okWorld 1 "x" "" "c").1).map (fun r => r.Body) =
      [Payload.processWatch { Pid := 1, Name := "x", Channel := "c", Severity := "error" }] ∧
    (dispatched (demoClient.ProcessUnwatch okWorld 1 "c").1).map (fun r => r.Body) =
      [Payload.processUnwatch { Pid := 1, Channel := "c" }] ∧
    (dispatched (demoClient.ProcessWatch okWorld 0 "" "" "").1).map (fun r => r.Body) =
      [Payload.processWatch { Pid := 4242, Name := "/usr/local/bin/demo",
                              Channel := "default", Severity := "error" }] :=
  ⟨(pid_validation okWorld demoClient (-1) "x" "error" "c").1 (by decide),
   by decide, by decide, by decide, by decide,
   ((pid_validation okWorld demoClient 1 "x" "" "c").2.2.1 (by decide)).2.2.2.2
      "x" rfl (by decide),
   by decide, by decide, by decide⟩

/-- C9, as stated, fails for the empty name: when the executable path cannot be resolved,
`ProcessWatch(5, "", "bogus", "c")` returns the error of `os.Executable`, not the
invalid-severity error, and `ProcessWatch(5, "", "", "c")` builds no payload at all. -/
theorem ProcessWatch_empty_name_unresolved :
    demoClient.ProcessWatch noExecutableWorld 5 "" "bogus" "c" =
      ([], some "readlink /proc/self/exe: no such file or directory") ∧
    (demoClient.ProcessWatch noExecutableWorld 5 "" "bogus" "c").2 ≠ some "invalid severity" ∧
    demoClient.ProcessWatch noExecutableWorld 5 "" "" "c" =
      ([], some "readlink /proc/self/exe: no such file or directory") := by
  decide

/-- C9, amended: for every client, every pid >= 0, every channel and every name that is
non-empty, or empty with the executable path `exe` resolved: `ProcessWatch` with an
empty severity builds the payload with severity `error`; with severity `error`, `warn` or
`info` it builds the payload with that severity; with any other severity it returns the
`invalid severity` error and makes no call. -/
theorem ProcessWatch_severity (w : World) (s : ServerWatcherClient) (pid : Int)
    (name severity channel exe : String) (hpid : 0 ≤ pid)
    (hname : name = "" → w.Executable = .ok exe) :
    (severity = "" →
      built (s.ProcessWatch w pid name severity channel).1 =
        [Payload.processWatch
          { Pid := resolvedPid w pid, Name := if name = "" then exe else name,
            Channel := defaultChannelRule s channel, Severity := "error" }]) ∧
    (severity = "error" ∨ severity = "warn" ∨ severity = "info" →
      built (s.ProcessWatch w pid name severity channel).1 =
        [Payload.processWatch
          { Pid := resolvedPid w pid, Name := if name = "" then exe else name,
            Channel := defaultChannelRule s channel, Severity := severity }]) ∧
    (severity ≠ "" ∧ severity ≠ "error" ∧ severity ≠ "warn" ∧ severity ≠ "info" →
      s.ProcessWatch w pid name severity channel = ([], some "invalid severity")) := by
  have hn : ¬ pid < 0 := by omega
  have hres : resolvedName w name = .ok (if name = "" then exe else name) := by
    by_cases h : name = ""
    · simp [resolvedName, h, hname h]
    · simp [resolvedName, h]
  rw [ProcessWatch_eq]
  simp only [hn, if_false, hres]
  refine ⟨?_, ?_, ?_⟩
  · intro h
    simp [h, built, built_sendRequest]
  · intro h
    have h0 : severity ≠ "" := by
      rcases h with h | h | h <;> rw [h] <;> decide
    simp [h, h0, built, built_sendRequest]
  · rintro ⟨h0, h1, h2, h3⟩
    simp [h0, h1, h2, h3]

/-- C9, amended, at `ProcessWatch(5, "x", "bogus", "c")` on the demo client: the
`invalid severity` error and no call. -/
theorem ProcessWatch_severity_witness :
    ((0 : Int) ≤ 5 ∧ (("x" : String) = "" → okWorld.Executable = .ok "/usr/local/bin/demo")) ∧
    demoClient.ProcessWatch okWorld 5 "x" "bogus" "c" = ([], some "invalid severity") ∧
    built (demoClient.ProcessWatch okWorld 5 "x" "" "c").1 =
      [Payload.processWatch { Pid := 5, Name := "x", Channel := "c", Severity := "error" }] ∧
    built (demoClient.ProcessWatch okWorld 0 "" "warn" "").1 =
      [Payload.processWatch { Pid := 4242, Name := "/usr/local/bin/demo",
                              Channel := "default", Severity := "warn" }] :=
  ⟨⟨by decide, fun _ => rfl⟩,
   (ProcessWatch_severity okWorld demoClient 5 "x" "bogus" "c" "/usr/local/bin/demo"
      (by decide) (fun _ => rfl)).2.2 (by decide),
   by decide, by decide⟩

/-- C10: when the request is built and the server answers, `sendRequest` on a status code
other than 200 whose body is read successfully returns no bytes and the error whose message
is the body text followed by ` [Status: <code>]`, with `Unsuccessful response from node.`
in place of the body text exactly when the body is empty; on status 200 with no response
expected it returns no bytes and no error. -/
theorem sendRequest_status (w : World) (s : ServerWatcherClient) (api : String)
    (payload : Payload) (hasResponse : Bool) (resp : Response)
    (hreq : w.NewRequest "POST" (s.url ++ "/" ++ api) = none)
    (hdo : w.Do (s.newRequest api payload) = .ok resp) :
    (∀ body, resp.StatusCode ≠ 200 → resp.Body = .ok body →
      (s.sendRequest w api payload hasResponse).2 =
        ("", some ((if body = "" then "Unsuccessful response from node." else body) ++
          " [Status: " ++ strconv.Itoa resp.StatusCode ++ "]"))) ∧
    (resp.StatusCode = 200 → hasResponse = false →
      (s.sendRequest w api payload hasResponse).2 = ("", none)) := by
  constructor
  · intro body hc hb
    by_cases hl : body = ""
    · simp [ServerWatcherClient.sendRequest, Id.run, hreq, hdo, hc, hb, hl, len_eq_zero_iff]
    · simp [ServerWatcherClient.sendRequest, Id.run, hreq, hdo, hc, hb, hl, len_eq_zero_iff]
  · intro hc hh
    simp [ServerWatcherClient.sendRequest, Id.run, hreq, hdo, hc, hh]

/-- C10 at a server answering 500 with body `server down`: the error message is
`server down [Status: 500]`; at a server answering 503 with an empty body it is
`Unsuccessful response from node. [Status: 503]`. -/
theorem sendRequest_status_witness :
    (serverDownWorld.NewRequest "POST" (demoClient.url ++ "/" ++ "notify") = none ∧
      serverDownWorld.Do (demoClient.newRequest "notify"
          (Payload.notify { Message := "boom", Channel := "default", Severity := "error" })) =
        .ok { StatusCode := 500, Body := .ok "server down" }) ∧
    (demoClient.sendRequest serverDownWorld "notify"
        (Payload.notify { Message := "boom", Channel := "default", Severity := "error" })
        false).2 = ("", some "server down [Status: 500]") ∧
    (demoClient.sendRequest emptyBodyWorld "notify"
        (Payload.notify { Message := "boom", Channel := "default", Severity := "error" })
        false).2 = ("", some "Unsuccessful response from node. [Status: 503]") ∧
    (demoClient.sendRequest okWorld "notify"
        (Payload.notify { Message := "boom", Channel := "default", Severity := "error" })
        false).2 = ("", none) :=
  ⟨⟨by decide, rfl⟩,
   (sendRequest_status serverDownWorld demoClient "notify"
      (Payload.notify { Message := "boom", Channel := "default", Severity := "error" }) false
      { StatusCode := 500, Body := .ok "server down" } (by decide) rfl).1
      "server down" (by decide) rfl,
   by decide, by decide⟩

end ServerWatchdog
